import Mathlib

/-!
Shallow embedding of `server/scripts/refresh_questrade_token.py`.

Python dictionaries loaded from JSON are modelled as structures with
`Option` fields for possibly missing keys; Python truthiness of optional
strings is `truthyStrOpt`.  Mutation of a login dict obtained from the
store is modelled by carrying the index of that login inside the list of
logins.  Side effects (file reads and writes, HTTP requests, invoking the
node helper subprocess) are recorded in an explicit trace of `Effect`s,
and fatal exits (`SystemExit`, `requests.HTTPError`, `RuntimeError`,
JSON decode failures) are an `Except PyErr` result.
-/

namespace RefreshQuestrade

/-- A small model of JSON scalar values, enough for the `id` field of a
login; `pyStr` mirrors the Python `str` conversion applied to it. -/
inductive JVal where
  | jnull
  | jbool (b : Bool)
  | jnum (n : Int)
  | jstr (s : String)
  deriving Repr, DecidableEq

/-- Python `str` on a JSON scalar (`str(None) = "None"` etc.). -/
def pyStr : JVal → String
  | JVal.jnull => "None"
  | JVal.jbool true => "True"
  | JVal.jbool false => "False"
  | JVal.jnum n => toString n
  | JVal.jstr s => s

/-- Python truthiness of an optional string: `None` and `""` are falsy. -/
def truthyStrOpt : Option String → Bool
  | none => false
  | some s => !(s == "")

/-- Python truthiness of an optional boolean JSON value. -/
def truthyBoolOpt : Option Bool → Bool
  | some true => true
  | _ => false

/-- Removes leading whitespace characters from a character list. -/
def dropWhileSpace : List Char → List Char
  | [] => []
  | c :: cs => if c.isWhitespace then dropWhileSpace cs else c :: cs

/-- Python `str.strip()`: remove leading and trailing whitespace. -/
def pyStrip (s : String) : String :=
  String.mk ((dropWhileSpace (dropWhileSpace s.data).reverse).reverse)

/-- Python `str.lower()` (ASCII case folding, all that is used here). -/
def pyLower (s : String) : String :=
  String.mk (s.data.map Char.toLower)

/-- Python `c in s` for a single-character needle. -/
def containsChar (s : String) (c : Char) : Bool :=
  s.data.contains c

/-- A login record of token-store.json. -/
structure Login where
  id : JVal
  label : Option String
  refreshToken : Option String
  updatedAt : Option String
  deriving Repr, DecidableEq

/-- The token store document: `{ updatedAt, logins: [...] }`. -/
structure Store where
  updatedAt : Option String
  logins : Option (List Login)
  deriving Repr, DecidableEq

/-- The fatal outcomes of the script: `raise SystemExit(msg)`,
`response.raise_for_status()` (a `requests.HTTPError` carrying status and
body), a JSON decoding failure from `response.json()`, and
`raise RuntimeError(msg)`. -/
inductive PyErr where
  | systemExit (msg : String)
  | httpError (status : Nat) (body : String)
  | jsonDecodeError
  | runtimeError (msg : String)
  deriving Repr, DecidableEq

/-- `update_login_refresh_token(store, login, new_token)` at source lines
98-112, with the aliased `login` dict represented by its index `i` into
`store.logins` and `datetime.now(...)` abstracted as the argument `ts`.
Returns the updated store together with a flag telling whether
`persist_token_store` was called (the whole updated store is then the
content written to disk). -/
def update_login_refresh_token (store : Store) (i : Nat) (new_token : Option String)
    (ts : String) : Store × Bool :=
  if truthyStrOpt new_token = false then (store, false)
  else
    match (store.logins.getD [])[i]? with
    | none => (store, false)
    | some login =>
      if login.refreshToken == new_token then (store, false)
      else
        let updated : Login :=
          { login with refreshToken := new_token, updatedAt := some ts }
        ({ store with updatedAt := some ts,
                      logins := some ((store.logins.getD []).set i updated) }, true)

/-- `find_login(store, login_id)` at source lines 55-64: with a truthy id,
return the first login whose stringified id equals it, else a fatal error;
with no id, return the first login, or a fatal error if there are none. -/
def find_login (store : Store) (login_id : Option String) : Except PyErr Login :=
  let logins := store.logins.getD []
  if truthyStrOpt login_id then
    match logins.find? (fun l => pyStr l.id == login_id.getD "") with
    | some l => Except.ok l
    | none =>
        Except.error (PyErr.systemExit
          ("Login with id " ++ login_id.getD "" ++ " not found in token-store.json"))
  else
    match logins with
    | [] => Except.error (PyErr.systemExit "token-store.json does not include any logins")
    | l :: _ => Except.ok l

/-- Helper for `find_login_idx`: first index and element matching the id. -/
def find_login_idx_aux (lid : String) : List Login → Nat → Option (Nat × Login)
  | [], _ => none
  | l :: rest, i =>
      if pyStr l.id == lid then some (i, l) else find_login_idx_aux lid rest (i + 1)

/-- The same search as `find_login`, additionally returning the position of
the found login inside `store.logins`; the position stands for the object
identity of the returned dict, through which later code mutates the store. -/
def find_login_idx (store : Store) (login_id : Option String) :
    Except PyErr (Nat × Login) :=
  let logins := store.logins.getD []
  if truthyStrOpt login_id then
    match find_login_idx_aux (login_id.getD "") logins 0 with
    | some il => Except.ok il
    | none =>
        Except.error (PyErr.systemExit
          ("Login with id " ++ login_id.getD "" ++ " not found in token-store.json"))
  else
    match logins with
    | [] => Except.error (PyErr.systemExit "token-store.json does not include any logins")
    | l :: _ => Except.ok (0, l)

/-- Source line 23. -/
def MAX_REDIRECTS : Nat := 5

/-- Source line 22. -/
def TOKEN_URL : String := "https://login.questrade.com/oauth2/token"

/-- Source line 25, the Python set written as a list. -/
def DRIVERS : List String := ["requests", "node"]

/-- Source line 24. -/
def SESSION_PRESETS : List String := ["python", "node"]

/-- The JSON payload of a successful token response (source line 175-183). -/
structure RefreshPayload where
  access_token : Option String
  refresh_token : Option String
  expires_in : Option Int
  api_server : Option String
  deriving Repr, DecidableEq

/-- An HTTP response as observed by the script: status code, the optional
`Location` header, the body text, and the result of `response.json()`
(`none` when the body is not valid JSON). -/
structure HttpResponse where
  status : Nat
  location : Option String
  body : String
  jsonBody : Option RefreshPayload
  deriving Repr, DecidableEq

/-- One request issued by `session.get(current_url, params=params, ...)`:
the url and the query parameters attached (`none` models `params=None`). -/
structure RequestRec where
  url : String
  params : Option (List (String × String))
  deriving Repr, DecidableEq

/-- Source line 90: `300 <= response.status_code < 400 and location`, with
`location = response.headers.get("location")` (truthy string). -/
def isRedirectResponse (r : HttpResponse) : Bool :=
  decide (300 ≤ r.status) && decide (r.status < 400) && truthyStrOpt r.location

/-- Source line 69: the query parameters of the initial request. -/
def initialParams (refresh_token : String) : List (String × String) :=
  [("grant_type", "refresh_token"), ("refresh_token", refresh_token)]

/-- The body of the `for attempt in range(MAX_REDIRECTS + 1)` loop of
`refresh_once` (source lines 71-95).  The network is a function `net` from
the attempt number to the response received; `join` is `urllib.parse.urljoin`.
Returns the list of requests issued and either the terminal response or the
`RuntimeError` raised when the loop runs out of attempts. -/
def refresh_loop (join : String → String → String) (net : Nat → HttpResponse) :
    Nat → Nat → String → Option (List (String × String)) →
    List RequestRec × Except PyErr HttpResponse
  | 0, _, _, _ =>
      ([], Except.error (PyErr.runtimeError "Exceeded maximum redirect attempts during refresh"))
  | fuel + 1, attempt, current_url, params =>
      let response := net attempt
      let req : RequestRec := { url := current_url, params := params }
      if isRedirectResponse response then
        let next_url := join current_url (response.location.getD "")
        let rest := refresh_loop join net fuel (attempt + 1) next_url none
        (req :: rest.1, rest.2)
      else
        ([req], Except.ok response)

/-- `refresh_once(session, refresh_token)` at source lines 67-95. -/
def refresh_once (join : String → String → String) (net : Nat → HttpResponse)
    (refresh_token : String) : List RequestRec × Except PyErr HttpResponse :=
  refresh_loop join net (MAX_REDIRECTS + 1) 0 TOKEN_URL (some (initialParams refresh_token))

/-- `requests.Response.raise_for_status` raises `HTTPError` exactly for
status codes in the 4xx and 5xx ranges. -/
def raise_for_status (status : Nat) : Bool :=
  decide (400 ≤ status) && decide (status < 600)

/-- The optional keyword arguments of `perform_refreshes` that configure the
node driver (source lines 120-129), with the same defaults. -/
structure NodeOpts where
  trace_path : Option String := none
  method : Option String := none
  client : Option String := none
  keepalive : Option Bool := none
  connection_close : Bool := false
  tls_min : Option String := none
  tls_max : Option String := none
  tls_ciphers : Option String := none
  headers : Option (List (String × String)) := none
  deriving Repr, DecidableEq

/-- The `connection` sub-dict of the node config (source lines 217-223). -/
structure NodeConnection where
  keepAlive : Option Bool
  connectionClose : Option Bool
  deriving Repr, DecidableEq

/-- The `tls` sub-dict of the node config (source lines 225-233). -/
structure NodeTls where
  minVersion : Option String
  maxVersion : Option String
  ciphers : Option String
  deriving Repr, DecidableEq

/-- The cleaned config dict passed to the node helper; an `Option.none`
field is a key absent from the dict (source lines 211-245). -/
structure NodeConfig where
  method : Option String
  tracePath : Option String
  client : Option String
  connection : Option NodeConnection
  tls : Option NodeTls
  headers : Option (List (String × String))
  deriving Repr, DecidableEq

/-- The JSON argument handed to the node helper (source lines 238-245). -/
structure NodePayload where
  refreshToken : String
  iterations : Nat
  config : Option NodeConfig
  deriving Repr, DecidableEq

/-- Builds the node helper argument exactly as source lines 211-245:
sub-dicts are attached only when nonempty, `None`-valued top-level entries
are dropped by the `cleaned_config` comprehension, and the whole `config`
key is attached only when the cleaned dict is nonempty. -/
def build_node_payload (token : String) (iterations : Nat) (opts : NodeOpts) : NodePayload :=
  let connection : Option NodeConnection :=
    if opts.keepalive.isSome ∨ opts.connection_close then
      some { keepAlive := opts.keepalive,
             connectionClose := if opts.connection_close then some true else none }
    else none
  let tlsMin := if truthyStrOpt opts.tls_min then opts.tls_min else none
  let tlsMax := if truthyStrOpt opts.tls_max then opts.tls_max else none
  let tlsCiphers := if truthyStrOpt opts.tls_ciphers then opts.tls_ciphers else none
  let tls : Option NodeTls :=
    if tlsMin.isSome ∨ tlsMax.isSome ∨ tlsCiphers.isSome then
      some { minVersion := tlsMin, maxVersion := tlsMax, ciphers := tlsCiphers }
    else none
  let headers : Option (List (String × String)) :=
    match opts.headers with
    | some hs => if hs.isEmpty then none else some hs
    | none => none
  let hasConfig := opts.method.isSome ∨ opts.trace_path.isSome ∨ opts.client.isSome ∨
    connection.isSome ∨ tls.isSome ∨ headers.isSome
  { refreshToken := token, iterations := iterations,
    config :=
      if hasConfig then
        some { method := opts.method, tracePath := opts.trace_path, client := opts.client,
               connection := connection, tls := tls, headers := headers }
      else none }

/-- One entry of the `results` list of the node helper output. -/
structure NodeEntry where
  refreshToken : Option String
  deriving Repr, DecidableEq

/-- The parsed stdout of the node helper (source lines 264-281). -/
structure NodeResponse where
  success : Option Bool
  status : Option Int
  body : Option String
  error : Option String
  results : Option (List NodeEntry)
  deriving Repr, DecidableEq

/-- The externally visible actions of a run: reading token-store.json,
issuing an HTTP request, invoking the node helper subprocess, and writing
the store back to disk via `persist_token_store`. -/
inductive Effect where
  | loadStore
  | httpRequest (req : RequestRec)
  | invokeNode (payload : NodePayload)
  | persist (s : Store)
  deriving Repr, DecidableEq

def Effect.isHttpRequest : Effect → Bool
  | Effect.httpRequest _ => true
  | _ => false

def Effect.isInvokeNode : Effect → Bool
  | Effect.invokeNode _ => true
  | _ => false

def Effect.isPersist : Effect → Bool
  | Effect.persist _ => true
  | _ => false

/-- The ambient world of a run: the content of token-store.json, the
`urljoin` function, the network (responses per refresh cycle and attempt),
the wall clock (a timestamp per persisting step), and the behaviour of the
node helper subprocess.  `nodeOutput = none` is empty stdout, `some none`
is unparsable stdout, `some (some r)` a parsed JSON object `r`. -/
structure Env where
  store : Store
  join : String → String → String
  net : Nat → Nat → HttpResponse
  ts : Nat → String
  nodeScriptExists : Bool
  nodeReturncode : Int
  nodeOutput : Option (Option NodeResponse)
  abspath : String → String

/-- The refresh loop of `perform_refreshes` for the requests driver
(source lines 166-186): run the remaining cycles, recording the requests
issued and persisting a rotated token through `update_login_refresh_token`.
`li` is the index of the resolved login, `c` the current cycle number. -/
def run_cycles (join : String → String → String) (net : Nat → Nat → HttpResponse)
    (tss : Nat → String) (li : Nat) :
    Nat → Store → String → Nat → List Effect × Except PyErr Unit
  | 0, _, _, _ => ([], Except.ok ())
  | n + 1, store, token, c =>
      let once := refresh_once join (net c) token
      let effs := once.1.map Effect.httpRequest
      match once.2 with
      | Except.error e => (effs, Except.error e)
      | Except.ok response =>
          if response.status ≠ 200 ∧ raise_for_status response.status = true then
            (effs, Except.error (PyErr.httpError response.status response.body))
          else
            match response.jsonBody with
            | none => (effs, Except.error PyErr.jsonDecodeError)
            | some payload =>
                if truthyStrOpt payload.refresh_token then
                  let upd := update_login_refresh_token store li payload.refresh_token (tss c)
                  let peffs := if upd.2 then [Effect.persist upd.1] else []
                  let rest := run_cycles join net tss li n upd.1 (payload.refresh_token.getD "") (c + 1)
                  (effs ++ peffs ++ rest.1, rest.2)
                else
                  let rest := run_cycles join net tss li n store token (c + 1)
                  (effs ++ rest.1, rest.2)

/-- Applies the `results` list of the node helper output (source lines
279-284), persisting every truthy rotated token in order. -/
def apply_node_results (tss : Nat → String) (li : Nat) :
    List NodeEntry → Store → String → Nat → List Effect × Store × String
  | [], store, token, _ => ([], store, token)
  | entry :: rest, store, token, k =>
      if truthyStrOpt entry.refreshToken then
        let upd := update_login_refresh_token store li entry.refreshToken (tss k)
        let peffs := if upd.2 then [Effect.persist upd.1] else []
        let fin := apply_node_results tss li rest upd.1 (entry.refreshToken.getD "") (k + 1)
        (peffs ++ fin.1, fin.2)
      else
        apply_node_results tss li rest store token (k + 1)

/-- `perform_refreshes_with_node_driver` (source lines 191-286): check the
helper script exists, invoke it with the JSON payload, and treat empty
output, unparsable output, a nonzero exit code, or a falsy `success` flag
as fatal; on success persist each rotated token of the results list. -/
def run_node_driver (env : Env) (store : Store) (li : Nat) (token : String)
    (_iterations : Nat) (payload : NodePayload) : List Effect × Except PyErr Unit :=
  if env.nodeScriptExists = false then
    ([], Except.error (PyErr.systemExit "Node helper not found"))
  else
    let effs := [Effect.invokeNode payload]
    match env.nodeOutput with
    | none => (effs, Except.error (PyErr.systemExit "Node driver did not return any output"))
    | some none => (effs, Except.error (PyErr.systemExit "Failed to parse Node driver output"))
    | some (some response) =>
        if env.nodeReturncode ≠ 0 ∨ truthyBoolOpt response.success = false then
          (effs, Except.error (PyErr.systemExit "Node driver failed"))
        else
          let fin := apply_node_results env.ts li (response.results.getD []) store token 0
          (effs ++ fin.1, Except.ok ())

/-- The headers installed by `build_session` for the node preset
(source lines 296-305). -/
def NODE_PRESET_HEADERS : List (String × String) :=
  [("User-Agent", "python-requests/2.32.5"),
   ("Accept", "application/json, text/plain, */*"),
   ("Connection", "close"),
   ("Accept-Encoding", "gzip, compress, deflate, br")]

/-- The default `requests.Session` headers with the User-Agent overridden
as in the python preset branch (source lines 306-309). -/
def REQUESTS_DEFAULT_HEADERS : List (String × String) :=
  [("User-Agent", "python-requests/2.32.5"),
   ("Accept-Encoding", "gzip, deflate"),
   ("Accept", "*/*"),
   ("Connection", "keep-alive")]

/-- `build_session(preset)` at source lines 289-313: validate the preset
and return the session headers it installs. -/
def build_session (preset : String) : Except PyErr (List (String × String)) :=
  let preset_key := pyStrip (pyLower preset)
  if SESSION_PRESETS.contains preset_key = false then
    Except.error (PyErr.systemExit ("Unsupported session preset " ++ preset))
  else if preset_key == "node" then
    Except.ok NODE_PRESET_HEADERS
  else
    Except.ok REQUESTS_DEFAULT_HEADERS

/-- `perform_refreshes` (source lines 115-188): load the store, resolve
the login, check its refresh token, validate the driver, then either hand
off to the node driver or build a session and run the refresh cycles. -/
def perform_refreshes (env : Env) (login_id : Option String) (iterations : Nat)
    (preset : String) (driver : String) (opts : NodeOpts) :
    List Effect × Except PyErr Unit :=
  let store := env.store
  let effs0 := [Effect.loadStore]
  match find_login_idx store login_id with
  | Except.error e => (effs0, Except.error e)
  | Except.ok il =>
      let token := il.2.refreshToken
      if truthyStrOpt token = false then
        (effs0, Except.error (PyErr.systemExit "Selected login does not include a refreshToken field"))
      else
        let tok := token.getD ""
        let driver_key := pyStrip (pyLower driver)
        if DRIVERS.contains driver_key = false then
          (effs0, Except.error (PyErr.systemExit ("Unsupported driver " ++ driver)))
        else if driver_key == "node" then
          let r := run_node_driver env store il.1 tok iterations
            (build_node_payload tok iterations opts)
          (effs0 ++ r.1, r.2)
        else
          match build_session preset with
          | Except.error e => (effs0, Except.error e)
          | Except.ok _headers =>
              let r := run_cycles env.join env.net env.ts il.1 iterations store tok 0
              (effs0 ++ r.1, r.2)

/-- Helper for `splitFirstColon`: characters before the first colon, and
the characters after it when one exists. -/
def splitFirstAux : List Char → List Char × Option (List Char)
  | [] => ([], none)
  | c :: cs =>
      if c = ':' then ([], some cs)
      else
        let r := splitFirstAux cs
        (c :: r.1, r.2)

/-- Python `s.split(":", 1)`: the part before the first colon and the rest. -/
def splitFirstColon (s : String) : String × String :=
  let r := splitFirstAux s.data
  (String.mk r.1, String.mk (r.2.getD []))

/-- Python dict insertion: replace the value in place if the key exists,
otherwise append the binding. -/
def dictInsert (d : List (String × String)) (k v : String) : List (String × String) :=
  if d.any (fun p => p.1 == k) then
    d.map (fun p => if p.1 == k then (k, v) else p)
  else d ++ [(k, v)]

/-- The `--node-header` parsing loop of `main` (source lines 396-405):
skip empty or whitespace-only values, fail fatally on a value without a
colon, otherwise split at the first colon and strip both parts. -/
def parse_node_headers_aux (acc : List (String × String)) :
    List String → Except PyErr (List (String × String))
  | [] => Except.ok acc
  | h :: rest =>
      if h == "" ∨ pyStrip h == "" then parse_node_headers_aux acc rest
      else if containsChar h ':' = false then
        Except.error (PyErr.systemExit "--node-header values must be in Key: Value format")
      else
        let kv := splitFirstColon h
        parse_node_headers_aux (dictInsert acc (pyStrip kv.1) (pyStrip kv.2)) rest

/-- Source lines 394-405: `node_headers` stays `None` when the flag list is
absent or empty (Python truthiness of the list), else the parsed dict. -/
def resolve_node_headers : Option (List String) →
    Except PyErr (Option (List (String × String)))
  | none => Except.ok none
  | some [] => Except.ok none
  | some hs => Except.map some (parse_node_headers_aux [] hs)

/-- `expand_path` (source lines 28-31), with `os.path.abspath` abstracted
as the function argument. -/
def expand_path (abspath : String → String) : Option String → Option String
  | none => none
  | some p => if p == "" then none else some (abspath p)

/-- The parsed command line (source lines 316-386), with argparse defaults. -/
structure Args where
  login_id : Option String := none
  count : Int := 1
  preset : String := "python"
  driver : String := "requests"
  trace_path : Option String := none
  node_method : Option String := none
  node_client : Option String := none
  node_keepalive : Option String := none
  node_connection_close : Bool := false
  node_tls_min : Option String := none
  node_tls_max : Option String := none
  node_tls_ciphers : Option String := none
  node_headers : Option (List String) := none

/-- `main` (source lines 389-425): reject a non-positive count, parse the
header overrides and the keepalive flag, then call `perform_refreshes`. -/
def main (env : Env) (args : Args) : List Effect × Except PyErr Unit :=
  if args.count ≤ 0 then
    ([], Except.error (PyErr.systemExit "--count must be >= 1"))
  else
    match resolve_node_headers args.node_headers with
    | Except.error e => ([], Except.error e)
    | Except.ok nh =>
        let kv : Option Bool := Option.map (fun s => pyLower s == "true") args.node_keepalive
        perform_refreshes env args.login_id args.count.toNat args.preset args.driver
          { trace_path := expand_path env.abspath args.trace_path,
            method := args.node_method, client := args.node_client,
            keepalive := kv, connection_close := args.node_connection_close,
            tls_min := args.node_tls_min, tls_max := args.node_tls_max,
            tls_ciphers := args.node_tls_ciphers, headers := nh }

/-! Concrete sample data for closed instances of the theorems below. -/

/-- A permanently redirecting response. -/
def redirectResponse : HttpResponse :=
  { status := 302, location := some "https://x/step", body := "", jsonBody := none }

/-- The login of `sampleStore`. -/
def sampleLogin : Login :=
  { id := JVal.jnum 1, label := some "L", refreshToken := some "T", updatedAt := some "old" }

/-- A store with a single login holding refresh token "T". -/
def sampleStore : Store :=
  { updatedAt := some "old", logins := some [sampleLogin] }

/-- A node helper reply that succeeds with no result entries. -/
def nodeOkResponse : NodeResponse :=
  { success := some true, status := none, body := none, error := none, results := some [] }

/-- A concrete world over `sampleStore` whose network always redirects and
whose node helper succeeds. -/
def sampleEnv : Env :=
  { store := sampleStore,
    join := fun _ l => l,
    net := fun _ _ => redirectResponse,
    ts := fun _ => "TS",
    nodeScriptExists := true,
    nodeReturncode := 0,
    nodeOutput := some (some nodeOkResponse),
    abspath := id }

/-! Helper lemmas about the redirect loop. -/

/-- When every response is a redirect, the loop issues one request per unit
of fuel and ends in the `RuntimeError`. -/
theorem refresh_loop_all_redirect (join : String → String → String)
    (net : Nat → HttpResponse) (h : ∀ i, isRedirectResponse (net i) = true) :
    ∀ fuel attempt url params,
      (refresh_loop join net fuel attempt url params).1.length = fuel ∧
      (refresh_loop join net fuel attempt url params).2 =
        Except.error (PyErr.runtimeError "Exceeded maximum redirect attempts during refresh") := by
  intro fuel
  induction fuel with
  | zero => intro attempt url params; simp [refresh_loop]
  | succ n ih =>
      intro attempt url params
      have ihx := ih (attempt + 1) (join url ((net attempt).location.getD "")) none
      simp [refresh_loop, h attempt, ihx.1, ihx.2]

/-- Once the parameters have been dropped, every later request of the loop
carries no parameters. -/
theorem refresh_loop_tail_params_none (join : String → String → String)
    (net : Nat → HttpResponse) :
    ∀ fuel attempt url,
      ((refresh_loop join net fuel attempt url none).1.all fun r => r.params.isNone) = true := by
  intro fuel
  induction fuel with
  | zero => intro attempt url; simp [refresh_loop]
  | succ n ih =>
      intro attempt url
      by_cases hr : isRedirectResponse (net attempt) = true
      · simp [refresh_loop, hr, ih]
      · simp [refresh_loop, hr]

/-- One unfolding of the loop with some parameters attached: the first
request carries them and every later request carries none. -/
theorem refresh_loop_params_structure (join : String → String → String)
    (net : Nat → HttpResponse) (n attempt : Nat) (url : String)
    (ps : List (String × String)) :
    (refresh_loop join net (n + 1) attempt url (some ps)).1.head?.map RequestRec.params =
      some (some ps) ∧
    ((refresh_loop join net (n + 1) attempt url (some ps)).1.tail.all
      fun r => r.params.isNone) = true := by
  by_cases hr : isRedirectResponse (net attempt) = true
  · simp [refresh_loop, hr, refresh_loop_tail_params_none]
  · simp [refresh_loop, hr]

/-- Claim C1: in a run of `refresh_once` in which every response received is
a redirect (3xx with a Location header), exactly `MAX_REDIRECTS + 1 = 6`
HTTP requests are issued and the call ends in the fatal `RuntimeError`;
no seventh request is issued. -/
theorem refresh_once_all_redirects_six_requests (join : String → String → String)
    (net : Nat → HttpResponse) (tok : String)
    (h : ∀ i, isRedirectResponse (net i) = true) :
    (refresh_once join net tok).1.length = MAX_REDIRECTS + 1 ∧
    MAX_REDIRECTS + 1 = 6 ∧
    (refresh_once join net tok).2 =
      Except.error (PyErr.runtimeError "Exceeded maximum redirect attempts during refresh") := by
  have hx := refresh_loop_all_redirect join net h (MAX_REDIRECTS + 1) 0 TOKEN_URL
    (some (initialParams tok))
  exact ⟨hx.1, rfl, hx.2⟩

/-- Closed instance of the C1 theorem at a concrete always-redirecting net. -/
theorem refresh_once_all_redirects_six_requests_witness :
    (refresh_once (fun _ l => l) (fun _ => redirectResponse) "T").1.length = MAX_REDIRECTS + 1 ∧
    MAX_REDIRECTS + 1 = 6 ∧
    (refresh_once (fun _ l => l) (fun _ => redirectResponse) "T").2 =
      Except.error (PyErr.runtimeError "Exceeded maximum redirect attempts during refresh") :=
  refresh_once_all_redirects_six_requests (fun _ l => l) (fun _ => redirectResponse) "T"
    (fun _ => rfl)

/-- Claim C2: the first request of `refresh_once` carries exactly the
parameters `grant_type=refresh_token` and `refresh_token=<token>`, and every
request after the first redirect has been followed carries no parameters,
whatever the network behaviour. -/
theorem refresh_once_params_only_on_first_request (join : String → String → String)
    (net : Nat → HttpResponse) (tok : String) :
    (refresh_once join net tok).1.head?.map RequestRec.params =
      some (some (initialParams tok)) ∧
    ((refresh_once join net tok).1.tail.all fun r => r.params.isNone) = true :=
  refresh_loop_params_structure join net MAX_REDIRECTS 0 TOKEN_URL (initialParams tok)

/-- Case analysis of `update_login_refresh_token`, shared by the claim
theorems about it. -/
theorem update_token_cases (store : Store) (i : Nat) (login : Login)
    (new_token : Option String) (ts : String)
    (hlogin : (store.logins.getD [])[i]? = some login) :
    (truthyStrOpt new_token = false ∨ login.refreshToken = new_token →
      update_login_refresh_token store i new_token ts = (store, false)) ∧
    (truthyStrOpt new_token = true → login.refreshToken ≠ new_token →
      (update_login_refresh_token store i new_token ts).2 = true ∧
      ((update_login_refresh_token store i new_token ts).1.logins.getD [])[i]? =
        some { login with refreshToken := new_token, updatedAt := some ts } ∧
      (update_login_refresh_token store i new_token ts).1.updatedAt = some ts ∧
      ∀ j, j ≠ i →
        ((update_login_refresh_token store i new_token ts).1.logins.getD [])[j]? =
          (store.logins.getD [])[j]?) := by
  have hlen : i < (store.logins.getD []).length :=
    (List.getElem?_eq_some_iff.mp hlogin).1
  constructor
  · rintro (hfalse | heq)
    · simp [update_login_refresh_token, hfalse]
    · simp [update_login_refresh_token, hlogin, heq]
  · intro htrue hne
    have hbeq : (login.refreshToken == new_token) = false := by
      simpa using hne
    refine ⟨?_, ?_, ?_, ?_⟩
    · simp [update_login_refresh_token, htrue, hlogin, hbeq]
    · simp [update_login_refresh_token, htrue, hlogin, hbeq,
        List.getElem?_set_self hlen]
    · simp [update_login_refresh_token, htrue, hlogin, hbeq]
    · intro j hj
      simp [update_login_refresh_token, htrue, hlogin, hbeq,
        List.getElem?_set_ne (Ne.symm hj)]

/-- Claim C3: `update_login_refresh_token` is a no-op (state kept, nothing
written) when the new token is absent or empty or equal to the stored one;
otherwise it overwrites the refresh token of login `i`, stamps both the
login and the store with the same timestamp, leaves every other login
unchanged, and writes the store. -/
theorem update_login_refresh_token_correct (store : Store) (i : Nat) (login : Login)
    (new_token : Option String) (ts : String)
    (hlogin : (store.logins.getD [])[i]? = some login) :
    (truthyStrOpt new_token = false ∨ login.refreshToken = new_token →
      update_login_refresh_token store i new_token ts = (store, false)) ∧
    (truthyStrOpt new_token = true → login.refreshToken ≠ new_token →
      (update_login_refresh_token store i new_token ts).2 = true ∧
      ((update_login_refresh_token store i new_token ts).1.logins.getD [])[i]? =
        some { login with refreshToken := new_token, updatedAt := some ts } ∧
      (update_login_refresh_token store i new_token ts).1.updatedAt = some ts ∧
      ∀ j, j ≠ i →
        ((update_login_refresh_token store i new_token ts).1.logins.getD [])[j]? =
          (store.logins.getD [])[j]?) :=
  update_token_cases store i login new_token ts hlogin

/-- Closed instance of the C3 theorem: on `sampleStore` the stored token
"T" is kept without a write, and a fresh token "U" is written. -/
theorem update_login_refresh_token_correct_witness :
    update_login_refresh_token sampleStore 0 (some "T") "TS" = (sampleStore, false) ∧
    (update_login_refresh_token sampleStore 0 (some "U") "TS").2 = true ∧
    (update_login_refresh_token sampleStore 0 (some "U") "TS").1.updatedAt = some "TS" :=
  ⟨(update_login_refresh_token_correct sampleStore 0 sampleLogin (some "T") "TS" rfl).1
      (Or.inr rfl),
   ((update_login_refresh_token_correct sampleStore 0 sampleLogin (some "U") "TS" rfl).2
      rfl (by decide)).1,
   ((update_login_refresh_token_correct sampleStore 0 sampleLogin (some "U") "TS" rfl).2
      rfl (by decide)).2.2.1⟩

/-- Counterexample to claim C4 as stated: when the stored refresh token
already equals the new value, the first of the two successive calls is
itself a no-op, so the pair of calls performs zero persists, not exactly
one. -/
theorem update_twice_with_stored_token_persists_zero_times :
    ("T" : String) ≠ "" ∧
    (update_login_refresh_token sampleStore 0 (some "T") "TS1").2 = false ∧
    (update_login_refresh_token
        (update_login_refresh_token sampleStore 0 (some "T") "TS1").1 0
        (some "T") "TS2").2 = false := by
  refine ⟨by decide, rfl, rfl⟩

/-- Claim C4 (amended): two successive calls with the same non-empty token
perform at most one persist: the second call is always a no-op (same store,
no write), and the first call persists exactly when the stored token
differed from the new value. -/
theorem update_login_refresh_token_idempotent (store : Store) (i : Nat) (login : Login)
    (t ts1 ts2 : String)
    (hlogin : (store.logins.getD [])[i]? = some login) (ht : t ≠ "") :
    update_login_refresh_token
        (update_login_refresh_token store i (some t) ts1).1 i (some t) ts2 =
      ((update_login_refresh_token store i (some t) ts1).1, false) ∧
    (login.refreshToken ≠ some t →
      (update_login_refresh_token store i (some t) ts1).2 = true) ∧
    (login.refreshToken = some t →
      (update_login_refresh_token store i (some t) ts1).2 = false) := by
  have hlen : i < (store.logins.getD []).length :=
    (List.getElem?_eq_some_iff.mp hlogin).1
  have htrue : truthyStrOpt (some t) = true := by
    simp [truthyStrOpt, ht]
  by_cases heq : login.refreshToken = some t
  · have hfirst : update_login_refresh_token store i (some t) ts1 = (store, false) :=
      (update_token_cases store i login (some t) ts1 hlogin).1 (Or.inr heq)
    refine ⟨?_, fun hne => absurd heq hne, fun _ => by rw [hfirst]⟩
    rw [hfirst]
    exact (update_token_cases store i login (some t) ts2 hlogin).1 (Or.inr heq)
  · have hbeq : (login.refreshToken == some t) = false := by
      simpa using heq
    have hfirst :
        update_login_refresh_token store i (some t) ts1 =
          ({ store with updatedAt := some ts1,
                        logins := some ((store.logins.getD []).set i
                          { login with refreshToken := some t, updatedAt := some ts1 }) },
           true) := by
      simp [update_login_refresh_token, htrue, hlogin, hbeq]
    refine ⟨?_, fun _ => by rw [hfirst], fun h => absurd h heq⟩
    rw [hfirst]
    have hset : (((store.logins.getD []).set i
        { login with refreshToken := some t, updatedAt := some ts1 }))[i]? =
        some { login with refreshToken := some t, updatedAt := some ts1 } :=
      List.getElem?_set_self hlen
    exact (update_token_cases _ i
      { login with refreshToken := some t, updatedAt := some ts1 } (some t) ts2
      (by simpa using hset)).1 (Or.inr rfl)

/-- Closed instance of the amended C4 theorem on `sampleStore` with the
fresh token "U". -/
theorem update_login_refresh_token_idempotent_witness :
    update_login_refresh_token
        (update_login_refresh_token sampleStore 0 (some "U") "TS1").1 0 (some "U") "TS2" =
      ((update_login_refresh_token sampleStore 0 (some "U") "TS1").1, false) ∧
    (update_login_refresh_token sampleStore 0 (some "U") "TS1").2 = true := by
  have hx := update_login_refresh_token_idempotent sampleStore 0 sampleLogin
    "U" "TS1" "TS2" rfl (by decide)
  exact ⟨hx.1, hx.2.1 (by decide)⟩

/-- A terminal response with the non-200 status 201 whose body is valid
JSON carrying a rotated refresh token. -/
def createdResponse : HttpResponse :=
  { status := 201, location := none, body := "created",
    jsonBody := some { access_token := some "A", refresh_token := some "R2",
                       expires_in := some 1800, api_server := some "https://api" } }

/-- The store `sampleStore` after the token has been rotated to "R2". -/
def sampleStoreR2 : Store :=
  { updatedAt := some "TS",
    logins := some [{ id := JVal.jnum 1, label := some "L",
                      refreshToken := some "R2", updatedAt := some "TS" }] }

/-- Claim C5 evidence: a refresh cycle whose terminal response has the
non-200 status 201 does not abort.  `raise_for_status` raises only for 4xx
and 5xx statuses, so the cycle parses the JSON body, persists the rotated
token "R2" and completes successfully, although the code has just printed
a refresh-failed message for any non-200 status. -/
theorem non_200_terminal_response_is_processed_not_fatal :
    createdResponse.status ≠ 200 ∧
    raise_for_status createdResponse.status = false ∧
    run_cycles (fun _ l => l) (fun _ _ => createdResponse) (fun _ => "TS") 0
        1 sampleStore "T" 0 =
      ([Effect.httpRequest { url := TOKEN_URL, params := some (initialParams "T") },
        Effect.persist sampleStoreR2],
       Except.ok ()) := by
  refine ⟨by decide, by decide, ?_⟩
  rfl

/-- First-match decomposition of `find_login` with a truthy requested id,
the requested-id-absent error, and the no-id cases, all at once. -/
theorem find_login_correct (store : Store) (lid : String) (hne : lid ≠ "") :
    (∀ l, find_login store (some lid) = Except.ok l →
      pyStr l.id = lid ∧
      ∃ pre post, store.logins.getD [] = pre ++ l :: post ∧
        ∀ x ∈ pre, pyStr x.id ≠ lid) ∧
    ((∀ x ∈ store.logins.getD [], pyStr x.id ≠ lid) →
      find_login store (some lid) =
        Except.error (PyErr.systemExit
          ("Login with id " ++ lid ++ " not found in token-store.json"))) ∧
    (find_login store none =
      match store.logins.getD [] with
      | [] => Except.error (PyErr.systemExit "token-store.json does not include any logins")
      | l :: _ => Except.ok l) := by
  have htr : truthyStrOpt (some lid) = true := by simp [truthyStrOpt, hne]
  refine ⟨?_, ?_, ?_⟩
  · intro l hok
    rw [find_login] at hok
    simp only [htr, if_true, Option.getD_some] at hok
    rcases hfind : (store.logins.getD []).find? (fun x => pyStr x.id == lid) with _ | l₀
    · rw [hfind] at hok
      exact absurd hok (by simp)
    · rw [hfind] at hok
      have hl : l₀ = l := by
        simpa using hok
      subst hl
      rcases List.find?_eq_some.mp hfind with ⟨hp, pre, post, hdecomp, hpre⟩
      refine ⟨by simpa using hp, pre, post, hdecomp, ?_⟩
      intro x hx
      have := hpre x hx
      simpa using this
  · intro hall
    have hnone : (store.logins.getD []).find? (fun x => pyStr x.id == lid) = none := by
      rw [List.find?_eq_none]
      intro x hx
      simpa using hall x hx
    rw [find_login]
    simp only [htr, if_true, Option.getD_some, hnone]
  · rw [find_login]
    simp only [truthyStrOpt]
    rcases hlog : store.logins.getD [] with _ | ⟨l, rest⟩ <;> simp

/-- Claim C6: packaging of `find_login_correct` in the form of the claim;
restated so the single claim theorem carries all four cases. -/
theorem find_login_spec (store : Store) (lid : String) (hne : lid ≠ "") :
    (∀ l, find_login store (some lid) = Except.ok l →
      pyStr l.id = lid ∧
      ∃ pre post, store.logins.getD [] = pre ++ l :: post ∧
        ∀ x ∈ pre, pyStr x.id ≠ lid) ∧
    ((∀ x ∈ store.logins.getD [], pyStr x.id ≠ lid) →
      ∃ msg, find_login store (some lid) = Except.error (PyErr.systemExit msg)) ∧
    (∀ l rest, store.logins = some (l :: rest) → find_login store none = Except.ok l) ∧
    ((store.logins = none ∨ store.logins = some []) →
      ∃ msg, find_login store none = Except.error (PyErr.systemExit msg)) := by
  have hx := find_login_correct store lid hne
  refine ⟨hx.1, fun hall => ⟨_, hx.2.1 hall⟩, ?_, ?_⟩
  · intro l rest hlog
    have := hx.2.2
    rw [hlog] at this
    simpa using this
  · rintro (hlog | hlog) <;>
      · have := hx.2.2
        rw [hlog] at this
        exact ⟨_, by simpa using this⟩

/-- The first login of `twoLoginStore`, with numeric id 7. -/
def loginSeven : Login :=
  { id := JVal.jnum 7, label := some "A", refreshToken := some "T7", updatedAt := none }

/-- The second login of `twoLoginStore`, with string id "8". -/
def loginEight : Login :=
  { id := JVal.jstr "8", label := some "B", refreshToken := some "T8", updatedAt := none }

/-- A store with two logins, for the C6 witness. -/
def twoLoginStore : Store :=
  { updatedAt := none, logins := some [loginSeven, loginEight] }

/-- Closed instance of the C6 theorem on `twoLoginStore`: looking up id "8"
returns the login whose stringified id is "8", and the no-id lookup returns
the first login. -/
theorem find_login_spec_witness :
    (pyStr loginEight.id = "8" ∧
      ∃ pre post, twoLoginStore.logins.getD [] = pre ++ loginEight :: post ∧
        ∀ x ∈ pre, pyStr x.id ≠ "8") ∧
    find_login twoLoginStore none = Except.ok loginSeven :=
  ⟨(find_login_spec twoLoginStore "8" (by decide)).1 loginEight rfl,
   (find_login_spec twoLoginStore "8" (by decide)).2.2.1 loginSeven [loginEight] rfl⟩

/-- Counterexample to claim C7 as stated: with the unrecognized driver
"curl" the run does fail fatally, but only after the token store has been
loaded (the trace starts with the load effect), not before; driver and
preset validation live inside `perform_refreshes`, after the store is read
and the login resolved. -/
theorem unsupported_driver_fails_only_after_store_load :
    perform_refreshes sampleEnv none 1 "python" "curl" {} =
      ([Effect.loadStore], Except.error (PyErr.systemExit "Unsupported driver curl")) := rfl

/-- Claim C7 (amended): with an unrecognized driver, or an unrecognized
preset while the requests driver is selected, the run fails fatally having
performed no effect beyond loading the token store: no HTTP request, no
node helper invocation, no store write.  (With the node driver the preset
is never validated at all.) -/
theorem invalid_driver_or_preset_fatal_before_any_request (env : Env)
    (login_id : Option String) (iterations : Nat) (preset driver : String) (opts : NodeOpts)
    (h : DRIVERS.contains (pyStrip (pyLower driver)) = false ∨
         (pyStrip (pyLower driver) = "requests" ∧
          SESSION_PRESETS.contains (pyStrip (pyLower preset)) = false)) :
    (perform_refreshes env login_id iterations preset driver opts).1 = [Effect.loadStore] ∧
    ∃ e, (perform_refreshes env login_id iterations preset driver opts).2 =
      Except.error e := by
  cases hf : find_login_idx env.store login_id with
  | error e =>
      refine ⟨?_, e, ?_⟩ <;> simp [perform_refreshes, hf]
  | ok il =>
      by_cases htok : truthyStrOpt il.2.refreshToken = false
      · refine ⟨?_, PyErr.systemExit "Selected login does not include a refreshToken field", ?_⟩ <;>
          simp [perform_refreshes, hf, htok]
      · rw [Bool.not_eq_false] at htok
        rcases h with hdrv | ⟨hreq, hpre⟩
        · have hdrv2 : pyStrip (pyLower driver) ∉ DRIVERS := by
            simpa using hdrv
          refine ⟨?_, PyErr.systemExit ("Unsupported driver " ++ driver), ?_⟩ <;>
            simp [perform_refreshes, hf, htok, hdrv2]
        · have hpre2 : pyStrip (pyLower preset) ∉ SESSION_PRESETS := by
            simpa using hpre
          have hbs : build_session preset =
              Except.error (PyErr.systemExit ("Unsupported session preset " ++ preset)) := by
            simp [build_session, hpre2]
          refine ⟨?_, PyErr.systemExit ("Unsupported session preset " ++ preset), ?_⟩ <;>
            simp [perform_refreshes, hf, htok, hreq, hbs, DRIVERS]

/-- Closed instance of the amended C7 theorem at the unrecognized driver
"ftp". -/
theorem invalid_driver_or_preset_fatal_before_any_request_witness :
    (perform_refreshes sampleEnv none 1 "python" "ftp" {}).1 = [Effect.loadStore] ∧
    ∃ e, (perform_refreshes sampleEnv none 1 "python" "ftp" {}).2 = Except.error e :=
  invalid_driver_or_preset_fatal_before_any_request sampleEnv none 1 "python" "ftp" {}
    (Or.inl (by decide))

/-- Claim C8: a non-positive `--count` is rejected in `main` before
`perform_refreshes` runs, so the run performs no effect at all: the store
file is never opened and no network request is made. -/
theorem nonpositive_count_rejected_before_io (env : Env) (args : Args)
    (h : args.count ≤ 0) :
    main env args = ([], Except.error (PyErr.systemExit "--count must be >= 1")) := by
  unfold main
  rw [if_pos h]

/-- Closed instance of the C8 theorem at `--count 0`. -/
theorem nonpositive_count_rejected_before_io_witness :
    main sampleEnv { count := 0 } =
      ([], Except.error (PyErr.systemExit "--count must be >= 1")) :=
  nonpositive_count_rejected_before_io sampleEnv { count := 0 } (by decide)

/-- The command line `--driver node --node-header "X: 1"`. -/
def nodeHeaderArgs : Args := { driver := "node", node_headers := some ["X: 1"] }

/-- The payload the node driver receives for `nodeHeaderArgs` over
`sampleEnv`. -/
def nodeHeaderPayload : NodePayload :=
  { refreshToken := "T", iterations := 1,
    config := some { method := none, tracePath := none, client := none,
                     connection := none, tls := none, headers := some [("X", "1")] } }

/-- Counterexample to claim C9 as stated: the value `""` contains no colon,
yet it does not cause a fatal validation error: the parsing loop silently
skips empty and whitespace-only values and the run proceeds. -/
theorem blank_header_value_without_colon_is_skipped :
    containsChar "" ':' = false ∧
    resolve_node_headers (some [""]) = Except.ok (some []) ∧
    (main sampleEnv { driver := "node", node_headers := some [""] }).2 =
      Except.ok () := ⟨rfl, rfl, rfl⟩

/-- Claim C9 (amended): `--node-header "X: 1"` produces a node driver
payload whose config.headers is exactly `[("X", "1")]` (key and value
trimmed, split at the first colon), and a header value that is non-blank
after trimming but contains no colon causes the fatal validation error;
blank values are silently skipped. -/
theorem node_header_flag_handling (h : String) (hs : List String)
    (acc : List (String × String)) (hblank : pyStrip h ≠ "")
    (hcolon : containsChar h ':' = false) :
    parse_node_headers_aux acc (h :: hs) =
      Except.error (PyErr.systemExit "--node-header values must be in Key: Value format") ∧
    main sampleEnv nodeHeaderArgs =
      ([Effect.loadStore, Effect.invokeNode nodeHeaderPayload], Except.ok ()) ∧
    Option.map NodeConfig.headers nodeHeaderPayload.config = some (some [("X", "1")]) := by
  refine ⟨?_, rfl, rfl⟩
  have hne : ¬((h == "") = true ∨ (pyStrip h == "") = true) := by
    rintro (h1 | h2)
    · apply hblank
      rw [beq_iff_eq.mp h1]
      rfl
    · exact hblank (beq_iff_eq.mp h2)
  rw [parse_node_headers_aux, if_neg hne, if_pos hcolon]

/-- Closed instance of the C9 theorem at the colon-free value "abc". -/
theorem node_header_flag_handling_witness :
    parse_node_headers_aux [] ["abc"] =
      Except.error (PyErr.systemExit "--node-header values must be in Key: Value format") :=
  (node_header_flag_handling "abc" [] [] (by decide) rfl).1

/-- A login whose refreshToken field is missing. -/
def noTokenLogin : Login :=
  { id := JVal.jnum 2, label := some "N", refreshToken := none, updatedAt := none }

/-- A world whose store resolves to `noTokenLogin`. -/
def noTokenEnv : Env :=
  { sampleEnv with store := { updatedAt := none, logins := some [noTokenLogin] } }

/-- Claim C10: when the resolved login has a missing or empty refreshToken,
`perform_refreshes` fails fatally whatever the driver, with no effect
beyond loading the store: no HTTP request, no node helper invocation, no
store write. -/
theorem missing_refresh_token_fatal_before_effects (env : Env) (login_id : Option String)
    (iterations : Nat) (preset driver : String) (opts : NodeOpts) (i : Nat) (login : Login)
    (hfind : find_login_idx env.store login_id = Except.ok (i, login))
    (htok : truthyStrOpt login.refreshToken = false) :
    perform_refreshes env login_id iterations preset driver opts =
      ([Effect.loadStore],
       Except.error (PyErr.systemExit "Selected login does not include a refreshToken field")) := by
  simp [perform_refreshes, hfind, htok]

/-- Closed instance of the C10 theorem over `noTokenEnv`, with the node
driver selected. -/
theorem missing_refresh_token_fatal_before_effects_witness :
    perform_refreshes noTokenEnv none 3 "python" "node" {} =
      ([Effect.loadStore],
       Except.error (PyErr.systemExit "Selected login does not include a refreshToken field")) :=
  missing_refresh_token_fatal_before_effects noTokenEnv none 3 "python" "node" {} 0
    noTokenLogin rfl rfl

end RefreshQuestrade
